import Mathlib

/-!
Verification development for the Github-Heroes procedural generation and
combat core.

Modelling conventions for the shallow embedding:

* Python integers are `Nat` where the source keeps them non-negative and
  `Int` where a subtraction or a draw can go below zero.
* Python strings are Lean `String` values; every string algorithm the code
  needs (split on a slash, lower-casing, substring search, blank test) is
  defined here by structural recursion over the underlying character list so
  that all of them compute inside the kernel.
* The global `random` module is modelled as an abstract deterministic
  generator: a state type `S` together with a seeding operation and the
  drawing operations the code uses (`random.seed`, `random.randint`,
  `random.random`, `random.choice`).  The hidden global state is threaded
  explicitly through every embedded function, so a Python call site that
  reads the generator receives the current state and returns the next one.
  `random.random` yields a rational in `[0,1)`; the float thresholds of the
  source (0.95, 0.975, 0.995, 0.7) are exact rationals.
* Python `dict` values that the code only iterates in insertion order or
  queries by key (`keyword_hits`, `ENEMY_PREFIXES`) are association lists;
  the running `zone_file_counts` dict, which is only read and incremented
  pointwise, is a function `String → Nat`.
-/

/-- Python `path.split("/")` on the character list of a string. -/
def splitSlash (cs : List Char) : List (List Char) :=
  match cs with
  | [] => [[]]
  | c :: rest =>
    match splitSlash rest with
    | [] => [[]]
    | g :: gs => if c = '/' then [] :: g :: gs else (c :: g) :: gs

/-- Python `"/".join(parts)` on character lists. -/
def joinSlash (gs : List (List Char)) : List Char :=
  (gs.intersperse ['/']).flatten

/-- ASCII lower-casing of one character, as Python `str.lower` acts on the
ASCII zone names the generator feeds it. -/
def lowerChar (c : Char) : Char :=
  if 'A' ≤ c ∧ c ≤ 'Z' then Char.ofNat (c.toNat + 32) else c

/-- Python `s.lower()`. -/
def pyLower (s : String) : String := ⟨s.data.map lowerChar⟩

/-- Substring test on character lists, Python `needle in hay`. -/
def isSub (needle hay : List Char) : Bool :=
  match hay with
  | [] => needle.isEmpty
  | _ :: t => needle.isPrefixOf hay || isSub needle t

/-- Python `sub in s` for strings. -/
def containsSub (sub s : String) : Bool := isSub sub.data s.data

/-- Python falsiness of `path` combined with `path.strip()`: true exactly when
the string is empty or whitespace-only, the skip condition of the room
generator. -/
def isBlank (s : String) : Bool := s.data.all Char.isWhitespace

/-- Python list-join with newlines, `"\n".join(messages)`. -/
def pyJoinNL (msgs : List String) : String :=
  ⟨((msgs.map String.data).intersperse ('\n'.toString).data).flatten⟩

/-- The global `random` generator of the Python runtime, abstracted: a state
type `S`, reseeding, and the draw operations the code uses.  `randint a b`
draws from `[a,b]`, `randFloat` models `random.random()` as a rational in
`[0,1)`, `choiceIdx s n` models the index `random.choice` picks from a
sequence of length `n`. -/
structure RNG (S : Type) where
  seedF : Nat → S
  randint : S → Int → Int → Int × S
  randFloat : S → ℚ × S
  choiceIdx : S → Nat → Nat × S

/-- A concrete generator instance over `Nat` states, used to run the embedded
code on closed inputs: `randint` returns the lower bound, `randFloat`
returns `0`, `choiceIdx` returns index `0`. -/
def natRNG : RNG Nat where
  seedF := fun n => n
  randint := fun s a _ => (a, s + 1)
  randFloat := fun s => (0, s + 1)
  choiceIdx := fun s _ => (0, s + 1)

/-- `TreeEntry` of `data/models.py` (the `size` column is dead weight for the
generators and omitted). -/
structure TreeEntry where
  path : String
  is_dir : Bool
  file_type : Option String
deriving DecidableEq

/-- `ReadmeFeatures` of `data/models.py`; `word_frequencies` and
`keyword_hits` are insertion-ordered association lists. -/
structure ReadmeFeatures where
  word_count : Nat := 0
  char_count : Nat := 0
  heading_count : Nat := 0
  word_frequencies : List (String × Nat) := []
  keyword_hits : List (String × Nat) := []
  seed : Nat := 0
deriving DecidableEq

/-- `Player` of `data/models.py`, restricted to the game-relevant columns.
`hp` is an `Int` because combat subtracts damage below zero before the
defeat check. -/
structure Player where
  name : String := "Hero"
  level : Nat := 1
  xp : Nat := 0
  hp : Int := 100
  attack : Nat := 10
  defense : Nat := 5
  speed : Nat := 8
  luck : Nat := 5
deriving DecidableEq

/-- `Enemy` of `data/models.py`; `tags` stands for the parsed `tags_json`
list, `speed` and `creature_image_id` are `Int` because they come from
`random.randint`. -/
structure Enemy where
  world_id : Option Nat := none
  name : String := ""
  level : Nat := 1
  hp : Int := 50
  attack : Nat := 5
  defense : Nat := 5
  speed : Int := 10
  tags : List String := []
  is_boss : Bool := false
  creature_image_id : Int := 0
deriving DecidableEq

/-- `DungeonRoom` of `data/models.py`.  `loot_quality` is an `Int` because
the older generator computes it from a possibly negative sum before
clamping. -/
structure DungeonRoom where
  world_id : Nat := 0
  zone_name : String := ""
  file_path : String := ""
  danger_level : Nat := 1
  loot_quality : Int := 1
  visited : Bool := false
deriving DecidableEq

/-- `PullRequestData` of `data/models.py`; `additions` and `deletions` are
optional, `none` when the scraper could not read them. -/
structure PullRequestData where
  pr_number : Nat := 0
  title : String := ""
  comment_count : Nat := 0
  is_open : Bool := true
  is_merged : Bool := false
  additions : Option Nat := none
  deletions : Option Nat := none
deriving DecidableEq

/-- `calculate_damage` of `game/logic.py`, with the `random.randint(-2, 2)`
draw made an explicit argument `variance`: first clamp
`base_damage = max(1, attack - defense // 2)`, then clamp again after adding
the variance. -/
def calculate_damage (attacker_attack defender_defense : Nat) (variance : Int) : Int :=
  let base_damage : Int := max 1 ((attacker_attack : Int) - ((defender_defense / 2 : Nat) : Int))
  let damage := max 1 (base_damage + variance)
  damage

/-- The damage call as the combat code performs it: draw the variance from
the generator, then apply `calculate_damage`. -/
def draw_damage {S : Type} (G : RNG S) (s : S) (attacker_attack defender_defense : Nat) :
    Int × S :=
  let r := G.randint s (-2) 2
  (calculate_damage attacker_attack defender_defense r.1, r.2)

/-- `combat_turn` of `game/logic.py`.  The Python function mutates
`player.hp` and `enemy.hp`; here it returns the message triple together with
the updated player, enemy and generator state. -/
def combat_turn {S : Type} (G : RNG S) (player : Player) (enemy : Enemy)
    (action : String) (s : S) : (String × Bool × Option String) × Player × Enemy × S :=
  if action = "attack" then
    let d1 := draw_damage G s player.attack enemy.defense
    let enemy1 := { enemy with hp := enemy.hp - d1.1 }
    let m1 := "You attack " ++ enemy.name ++ " for " ++ toString d1.1 ++ " damage!"
    if enemy1.hp ≤ 0 then
      ((pyJoinNL [m1, "You defeated " ++ enemy.name ++ "!"], false, some "victory"),
        player, enemy1, d1.2)
    else
      let d2 := draw_damage G d1.2 enemy.attack player.defense
      let player1 := { player with hp := player.hp - d2.1 }
      let m2 := enemy.name ++ " attacks you for " ++ toString d2.1 ++ " damage!"
      if player1.hp ≤ 0 then
        ((pyJoinNL [m1, m2, "You have been defeated!"], false, some "defeat"),
          player1, enemy1, d2.2)
      else
        ((pyJoinNL [m1, m2], true, none), player1, enemy1, d2.2)
  else if action = "defend" then
    let d1 := draw_damage G s enemy.attack (player.defense * 2)
    let player1 := { player with hp := player.hp - d1.1 }
    let m1 := "You defend! " ++ enemy.name ++ " attacks you for " ++ toString d1.1
      ++ " damage (reduced)."
    if player1.hp ≤ 0 then
      ((pyJoinNL [m1, "You have been defeated!"], false, some "defeat"), player1, enemy, d1.2)
    else
      ((pyJoinNL [m1], true, none), player1, enemy, d1.2)
  else if action = "flee" then
    let m1 := "You attempt to flee..."
    let r := G.randFloat s
    if r.1 < mkRat 7 10 then
      ((pyJoinNL [m1, "You successfully fled from battle!"], false, some "fled"),
        player, enemy, r.2)
    else
      let m2 := "You couldn’t escape! The enemy attacks!"
      let d1 := draw_damage G r.2 enemy.attack player.defense
      let player1 := { player with hp := player.hp - d1.1 }
      let m3 := enemy.name ++ " attacks you for " ++ toString d1.1 ++ " damage!"
      if player1.hp ≤ 0 then
        ((pyJoinNL [m1, m2, m3, "You have been defeated!"], false, some "defeat"),
          player1, enemy, d1.2)
      else
        ((pyJoinNL [m1, m2, m3], true, none), player1, enemy, d1.2)
  else
    ((pyJoinNL [], true, none), player, enemy, s)

/-- The `while player.xp >= xp_needed` loop of `award_xp` in
`game/logic.py`: subtract the threshold, bump the level, add the flat stat
increases, and remember that a level-up happened. -/
def level_up_loop (p : Player) (leveled : Bool) : Player × Bool :=
  if p.level * 100 ≤ p.xp then
    level_up_loop
      { p with
        xp := p.xp - p.level * 100
        level := p.level + 1
        hp := p.hp + 10
        attack := p.attack + 2
        defense := p.defense + 1
        speed := p.speed + 1
        luck := p.luck + 1 }
      true
  else (p, leveled)
termination_by p.xp * 2 + (if p.level = 0 then 1 else 0)
decreasing_by
  rcases Nat.eq_zero_or_pos p.level with h0 | h1
  · simp [h0]
  · have h2 : p.level ≠ 0 := by omega
    simp only [Nat.add_eq_zero, and_false, if_false, h2]
    omega

/-- `award_xp` of `game/logic.py`: add the grant to `player.xp`, then run the
level-up loop; returns the updated player and the `leveled_up` flag. -/
def award_xp (p : Player) (xp : Nat) : Player × Bool :=
  level_up_loop { p with xp := p.xp + xp } false

/-- Python truthiness of an optional integer column: `None` and `0` are
falsy. -/
def pyTruthy (o : Option Nat) : Bool :=
  match o with
  | none => false
  | some n => !(n == 0)

/-- `compute_pr_boss_level` of `github_heroes/github/analyzers.py`: start at
half the repository base level (floor 1), add a comment bonus, add a tier
bonus from the total diff size when both sides are truthy, cap at
`min(base_repo_level + 10, 50)`. -/
def compute_pr_boss_level (pr : PullRequestData) (base_repo_level : Nat) : Nat :=
  let level := max 1 (base_repo_level / 2) + pr.comment_count / 3
  let level :=
    if pyTruthy pr.additions && pyTruthy pr.deletions then
      let total_changes := pr.additions.getD 0 + pr.deletions.getD 0
      if 1000 < total_changes then level + 10
      else if 500 < total_changes then level + 5
      else if 100 < total_changes then level + 2
      else level
    else level
  let max_level := min (base_repo_level + 10) 50
  min level max_level

/-- `compute_issue_difficulty` takes the issue side; only the PR path is
needed by the claims, so issues are not embedded.  Next: the name-generation
configuration of `github_heroes/core/config.py`, transcribed verbatim
(including the duplicated entries of the source lists). -/
def ENEMY_PREFIXES_generic : List String :=
  ["Ancient", "Corrupted", "Dark", "Eternal", "Forgotten", "Hidden", "Lost",
   "Mystic", "Shadow", "Twisted", "Void", "Wandering", "Ancient", "Cursed",
   "Fallen", "Grim", "Hollow", "Silent", "Vengeful", "Withering", "Broken",
   "Chaotic", "Dread", "Frozen", "Glimmering", "Haunted", "Infernal",
   "Jagged", "Keen", "Luminous", "Muted", "Noxious"]

/-- AI-themed prefixes. -/
def ENEMY_PREFIXES_ai : List String :=
  ["Neural", "Quantum", "Digital", "Synthetic", "Binary", "Algorithmic",
   "Computational", "Cybernetic", "Data", "Logic", "Matrix", "Protocol",
   "Virtual", "Analytical", "Cognitive"]

/-- Web-themed prefixes. -/
def ENEMY_PREFIXES_web : List String :=
  ["Frontend", "Browser", "DOM", "CSS", "JavaScript", "React", "Vue",
   "Angular", "Web", "HTML", "Client", "UI", "UX", "Interface", "Markup",
   "Stylish"]

/-- Backend-themed prefixes. -/
def ENEMY_PREFIXES_backend : List String :=
  ["Server", "API", "Database", "Daemon", "Service", "Backend", "REST",
   "GraphQL", "Microservice", "Container", "Docker", "Kubernetes", "Node",
   "Express", "Django", "Flask"]

/-- CLI-themed prefixes (the source repeats "Shell"). -/
def ENEMY_PREFIXES_cli : List String :=
  ["Terminal", "Console", "Command", "Shell", "CLI", "Bash", "Prompt",
   "Script", "Command-Line", "Interactive", "Text", "ASCII", "TTY", "Shell",
   "Executable"]

/-- Scraping-themed prefixes. -/
def ENEMY_PREFIXES_scraping : List String :=
  ["Web", "Crawler", "Spider", "Scraper", "Parser", "Extractor", "Harvester",
   "Collector", "Bot", "Agent", "Hunter", "Gatherer", "Indexer", "Searcher",
   "Tracker"]

/-- The `ENEMY_PREFIXES` dict in insertion order. -/
def ENEMY_PREFIXES : List (String × List String) :=
  [("generic", ENEMY_PREFIXES_generic), ("ai", ENEMY_PREFIXES_ai),
   ("web", ENEMY_PREFIXES_web), ("backend", ENEMY_PREFIXES_backend),
   ("cli", ENEMY_PREFIXES_cli), ("scraping", ENEMY_PREFIXES_scraping)]

/-- Generic suffixes. -/
def ENEMY_SUFFIXES_generic : List String :=
  ["Spirit", "Entity", "Wraith", "Specter", "Phantom", "Guardian", "Warden",
   "Keeper", "Sentinel", "Defender", "Protector", "Watcher", "Beast",
   "Creature", "Fiend", "Demon", "Monster", "Horror", "Abomination",
   "Terror", "Archon", "Lord", "Master", "Ruler", "King", "Queen", "Prince",
   "Princess", "Champion", "Warrior", "Knight", "Paladin"]

/-- AI-themed suffixes. -/
def ENEMY_SUFFIXES_ai : List String :=
  ["Archon", "Network", "Core", "Matrix", "Node", "Processor", "Engine",
   "System", "Intelligence", "Mind", "Brain", "Neural Net", "AI", "Machine",
   "Bot", "Agent"]

/-- Web-themed suffixes. -/
def ENEMY_SUFFIXES_web : List String :=
  ["Elemental", "Renderer", "Component", "Widget", "View", "Template",
   "Page", "Site", "App", "Interface", "Display", "Canvas", "Frame",
   "Window", "Panel", "Screen"]

/-- Backend-themed suffixes. -/
def ENEMY_SUFFIXES_backend : List String :=
  ["Warden", "Server", "Daemon", "Service", "API", "Endpoint", "Handler",
   "Controller", "Router", "Gateway", "Proxy", "Cache", "Database", "Store",
   "Repository", "Engine"]

/-- CLI-themed suffixes. -/
def ENEMY_SUFFIXES_cli : List String :=
  ["Shade", "Shell", "Terminal", "Console", "Prompt", "CLI", "Command",
   "Script", "Executor", "Runner", "Interpreter", "Parser", "Processor",
   "Handler", "Tool"]

/-- Scraping-themed suffixes. -/
def ENEMY_SUFFIXES_scraping : List String :=
  ["Crawler", "Spider", "Bot", "Scraper", "Parser", "Extractor", "Harvester",
   "Collector", "Hunter", "Seeker", "Tracker", "Gatherer", "Agent", "Drone",
   "Scout", "Probe"]

/-- The `ENEMY_SUFFIXES` dict in insertion order. -/
def ENEMY_SUFFIXES : List (String × List String) :=
  [("generic", ENEMY_SUFFIXES_generic), ("ai", ENEMY_SUFFIXES_ai),
   ("web", ENEMY_SUFFIXES_web), ("backend", ENEMY_SUFFIXES_backend),
   ("cli", ENEMY_SUFFIXES_cli), ("scraping", ENEMY_SUFFIXES_scraping)]

/-- Dict lookup `d[keyword]` with the `keyword in d` guard of the source:
an absent key contributes nothing. -/
def poolFor (d : List (String × List String)) (k : String) : List String :=
  ((d.find? (fun kv => kv.1 == k)).map (fun kv => kv.2)).getD []

/-- Python list repetition `pool * weight`. -/
def listMul (l : List String) (n : Nat) : List String :=
  (List.replicate n l).flatten

/-- Stable insertion of one keyword entry into a descending-by-hits list;
an element moves in front only of strictly smaller hit counts, so entries
with equal counts keep their original order, as Python sorting does. -/
def insertHitsDesc (x : String × Nat) : List (String × Nat) → List (String × Nat)
  | [] => [x]
  | y :: ys => if y.2 < x.2 then x :: y :: ys else y :: insertHitsDesc x ys

/-- Python `list.sort(key=lambda kv: kv[1], reverse=True)`: a stable
descending sort by hit count. -/
def sortHitsDesc (l : List (String × Nat)) : List (String × Nat) :=
  l.foldl (fun acc x => insertHitsDesc x acc) []

/-- `_generate_enemy_name` of `github_heroes/game/generators.py`.  Every
branch reseeds the generator with a value computed from
`(keyword_hits, seed, word_count)` before drawing, so the incoming state `s`
is discarded by the first `random.seed(seed)` and never consulted. -/
def generate_enemy_name {S : Type} (G : RNG S) (s : S)
    (keyword_hits : List (String × Nat)) (seed : Nat) (word_count : Nat) :
    String × S :=
  let _ := s
  let s0 := G.seedF seed
  let active_keywords := sortHitsDesc (keyword_hits.filter (fun kv => 0 < kv.2))
  let pools :=
    if active_keywords.isEmpty then
      ((ENEMY_PREFIXES_generic, ENEMY_SUFFIXES_generic), s0)
    else
      let themed_prefix_pool := active_keywords.foldl
        (fun acc kv => acc ++ listMul (poolFor ENEMY_PREFIXES kv.1) (max 1 (kv.2 * 2))) []
      let themed_suffix_pool := active_keywords.foldl
        (fun acc kv => acc ++ listMul (poolFor ENEMY_SUFFIXES kv.1) (max 1 (kv.2 * 2))) []
      let pr :=
        if themed_prefix_pool.isEmpty then (ENEMY_PREFIXES_generic, s0)
        else
          let sA := G.seedF ((seed + word_count) % 1000)
          let rA := G.randFloat sA
          if rA.1 < mkRat 7 10 then
            (themed_prefix_pool ++ ENEMY_PREFIXES_generic.take (themed_prefix_pool.length / 3), rA.2)
          else
            (ENEMY_PREFIXES_generic ++ themed_prefix_pool.take (ENEMY_PREFIXES_generic.length / 3), rA.2)
      let sf :=
        if themed_suffix_pool.isEmpty then (ENEMY_SUFFIXES_generic, pr.2)
        else
          let sB := G.seedF ((seed + word_count + 100) % 1000)
          let rB := G.randFloat sB
          if rB.1 < mkRat 7 10 then
            (themed_suffix_pool ++ ENEMY_SUFFIXES_generic.take (themed_suffix_pool.length / 3), rB.2)
          else
            (ENEMY_SUFFIXES_generic ++ themed_suffix_pool.take (ENEMY_SUFFIXES_generic.length / 3), rB.2)
      ((pr.1, sf.1), sf.2)
  let prefix_pool := pools.1.1
  let suffix_pool := pools.1.2
  let sP := G.seedF ((seed + word_count) % 10000)
  let pick1 :=
    if prefix_pool.isEmpty then ("Generic", sP)
    else
      let c := G.choiceIdx sP prefix_pool.length
      (prefix_pool.getD (c.1 % prefix_pool.length) ("Generic"), c.2)
  let sS := G.seedF ((seed + word_count * 2 + 500) % 10000)
  let pick2 :=
    if suffix_pool.isEmpty then ("Spirit", sS)
    else
      let c := G.choiceIdx sS suffix_pool.length
      (suffix_pool.getD (c.1 % suffix_pool.length) ("Spirit"), c.2)
  (pick1.1 ++ " " ++ pick2.1, pick2.2)

/-- `generate_enemy_from_readme` of `github_heroes/game/generators.py` (the
repository-stats version): reseed with `features.seed`, draw the creature
image, build the name, combine the capped level factors, derive the stats,
draw the speed. -/
def generate_enemy_from_readme {S : Type} (G : RNG S) (s : S)
    (features : ReadmeFeatures) (world_id : Option Nat)
    (stars forks activity_score total_files commit_count : Nat) : Enemy × S :=
  let _ := s
  let s0 := G.seedF features.seed
  let rImg := G.randint s0 1 120
  let nm := generate_enemy_name G rImg.2 features.keyword_hits features.seed
    features.word_count
  let activity_level := min (activity_score / 100) 30
  let file_level := min (total_files / 10) 25
  let stars_level := min (stars / 100) 20
  let forks_level := min (forks / 50) 15
  let commit_level := min (commit_count / 5) 10
  let readme_bonus := min (features.word_count / 500) 5
  let level := min
    (1 + activity_level + file_level + stars_level + forks_level + commit_level
      + readme_bonus) 100
  let hp := 50 + level * 10 + total_files * 2
  let attack := 5 + level * 2 + min (stars / 50) 20
  let defense := 5 + level + min (activity_score / 200) 15
  let rSpeed := G.randint nm.2 5 20
  ({ world_id := world_id
     name := nm.1
     level := level
     hp := (hp : Int)
     attack := attack
     defense := defense
     speed := rSpeed.1
     tags := (features.keyword_hits.filter (fun kv => 0 < kv.2)).map (fun kv => kv.1)
     is_boss := false
     creature_image_id := rImg.1 }, rSpeed.2)

/-- The base loot quality of `generate_dungeon_rooms` (identical in both
versions of `game/generators.py`): a stars tier, then the health-state
adjustment. -/
def base_loot_for (stars : Nat) (health_state : String) : Int :=
  let base_loot : Int :=
    if 1000 < stars then 6
    else if 100 < stars then 4
    else if 10 < stars then 2
    else 1
  if health_state = "Vibrant" then base_loot + 1
  else if health_state = "Undead" then max 1 (base_loot - 1)
  else base_loot

/-- Zone of a room: the path with its last `/`-segment stripped, or `"root"`
when the path has no slash (both versions). -/
def zone_of (path : String) : String :=
  if path.data.contains '/' then ⟨joinSlash ((splitSlash path.data).dropLast)⟩
  else "root"

/-- Extensions the danger pass treats as code (both versions). -/
def danger_code_types : List String := ["py", "js", "ts", "java", "cpp", "c"]

/-- Extensions the danger pass treats as documentation. -/
def danger_doc_types : List String := ["md", "txt"]

/-- Extensions the danger pass treats as configuration (explicit `+ 0`). -/
def danger_config_types : List String := ["json", "yml", "yaml", "toml"]

/-- The danger computation shared by both versions of
`generate_dungeon_rooms`: base `min(1 + count // 5, 10)` from the running
zone file count, file-type adjustment, then the test-zone and doc-zone
adjustments, each applied after the base clamp. -/
def danger_for (zone_name : String) (zone_file_count : Nat) (file_type : Option String) : Nat :=
  let base := min (1 + zone_file_count / 5) 10
  let d1 :=
    match file_type with
    | none => base
    | some t =>
      if danger_code_types.contains t then base + 1
      else if danger_doc_types.contains t then max 1 (base - 1)
      else if danger_config_types.contains t then base + 0
      else base
  let d2 :=
    if containsSub ("test") (pyLower zone_name) || containsSub ("tests") (pyLower zone_name)
    then d1 + 2 else d1
  if containsSub ("doc") (pyLower zone_name) || containsSub ("docs") (pyLower zone_name)
  then max 1 (d2 - 1) else d2

/-- Extensions the older loot pass rewards (it adds `go` and `rs` to the
danger list). -/
def loot_code_types : List String := ["py", "js", "ts", "java", "cpp", "c", "go", "rs"]

/-- File-type loot bonus of the older generator. -/
def file_loot_bonus (file_type : Option String) : Int :=
  match file_type with
  | none => 0
  | some t =>
    if loot_code_types.contains t then 1
    else if danger_doc_types.contains t then -1
    else 0

/-- Loot quality of the older `generate_dungeon_rooms` in
`game/generators.py`: deterministic stars/danger/file terms plus a
`randint(-2, 2)` variation, clamped into `[1, 6]`. -/
def loot_quality_old {S : Type} (G : RNG S) (s : S) (base_loot : Int)
    (danger_level : Nat) (file_type : Option String) : Int × S :=
  let danger_bonus : Int := ((danger_level / 3 : Nat) : Int)
  let r := G.randint s (-2) 2
  (min (max 1 (base_loot + danger_bonus + file_loot_bonus file_type + r.1)) 6, r.2)

/-- Loot quality of the newer `generate_dungeon_rooms` in
`github_heroes/game/generators.py`: a flat probabilistic roll, 95% uniform
in `[1,3]`, then 4, 5 or 6 on the rare tail. -/
def loot_quality_roll {S : Type} (G : RNG S) (s : S) : Int × S :=
  let r := G.randFloat s
  if r.1 < mkRat 95 100 then G.randint r.2 1 3
  else if r.1 < mkRat 975 1000 then (4, r.2)
  else if r.1 < mkRat 995 1000 then (5, r.2)
  else (6, r.2)

/-- The entry loop of the newer `generate_dungeon_rooms`
(`github_heroes/game/generators.py`): skip directories and blank paths,
compute the zone, bump the running per-zone file count, derive the danger
level, roll the loot quality. -/
def rooms_loop {S : Type} (G : RNG S) (world_id : Nat) :
    List TreeEntry → (String → Nat) → S → List DungeonRoom
  | [], _, _ => []
  | e :: rest, zone_file_counts, s =>
    if e.is_dir then rooms_loop G world_id rest zone_file_counts s
    else if isBlank e.path then rooms_loop G world_id rest zone_file_counts s
    else
      let zone := zone_of e.path
      let c := zone_file_counts zone + 1
      let counts2 := fun z => if z = zone then c else zone_file_counts z
      let danger := danger_for zone c e.file_type
      let lq := loot_quality_roll G s
      { world_id := world_id
        zone_name := zone
        file_path := e.path
        danger_level := danger
        loot_quality := lq.1
        visited := false } :: rooms_loop G world_id rest counts2 lq.2

/-- `generate_dungeon_rooms` of `github_heroes/game/generators.py` (the
newer version).  The source still computes `base_loot` from stars and
health, but the probabilistic loot roll never reads it; the computation is
kept as the dead binding it is. -/
def generate_dungeon_rooms {S : Type} (G : RNG S) (s : S)
    (tree_entries : List TreeEntry) (world_id : Nat) (stars : Nat)
    (health_state : String) : List DungeonRoom :=
  let _base_loot := base_loot_for stars health_state
  rooms_loop G world_id tree_entries (fun _ => 0) s

/-- The entry loop of the older `generate_dungeon_rooms`
(`game/generators.py`): no blank-path skip, and the deterministic
stars/danger-weighted loot formula. -/
def rooms_loop_old {S : Type} (G : RNG S) (world_id : Nat) (base_loot : Int) :
    List TreeEntry → (String → Nat) → S → List DungeonRoom
  | [], _, _ => []
  | e :: rest, zone_file_counts, s =>
    if e.is_dir then rooms_loop_old G world_id base_loot rest zone_file_counts s
    else
      let zone := zone_of e.path
      let c := zone_file_counts zone + 1
      let counts2 := fun z => if z = zone then c else zone_file_counts z
      let danger := danger_for zone c e.file_type
      let lq := loot_quality_old G s base_loot danger e.file_type
      { world_id := world_id
        zone_name := zone
        file_path := e.path
        danger_level := danger
        loot_quality := lq.1
        visited := false } :: rooms_loop_old G world_id base_loot rest counts2 lq.2

/-- `generate_dungeon_rooms` of `game/generators.py` (the older version). -/
def generate_dungeon_rooms_old {S : Type} (G : RNG S) (s : S)
    (tree_entries : List TreeEntry) (world_id : Nat) (stars : Nat)
    (health_state : String) : List DungeonRoom :=
  rooms_loop_old G world_id (base_loot_for stars health_state) tree_entries (fun _ => 0) s

/-- The deduplication pass of `build_repo_world` (identical in both
versions): walk the generated rooms in order, keep a room only when its
`file_path` has not been seen, remember seen paths. -/
def dedup_rooms : List DungeonRoom → List String → List DungeonRoom
  | [], _ => []
  | r :: rest, seen_paths =>
    if r.file_path ∈ seen_paths then dedup_rooms rest seen_paths
    else r :: dedup_rooms rest (r.file_path :: seen_paths)

/-- Projection of a room onto every column except `loot_quality`, used to
compare the two generator versions. -/
structure RoomCore where
  world_id : Nat
  zone_name : String
  file_path : String
  danger_level : Nat
  visited : Bool
deriving DecidableEq

/-- Forget the loot quality of a room. -/
def core_of (r : DungeonRoom) : RoomCore :=
  { world_id := r.world_id
    zone_name := r.zone_name
    file_path := r.file_path
    danger_level := r.danger_level
    visited := r.visited }

/-- A default player, used to run the embedded code on closed inputs. -/
def demo_player : Player := {}

/-- A default enemy, used to run the embedded code on closed inputs. -/
def demo_enemy : Enemy := {}

/-- A plain python file at the repository root. -/
def demo_entry : TreeEntry :=
  { path := "a.py", is_dir := false, file_type := some "py" }

/-- A python file inside a `tests` zone. -/
def demo_test_entry : TreeEntry :=
  { path := "tests/a.py", is_dir := false, file_type := some "py" }

/-- The room that `generate_dungeon_rooms` produces from `demo_entry` under
`natRNG`. -/
def demo_room : DungeonRoom :=
  { world_id := 1, zone_name := "root", file_path := "a.py", danger_level := 2,
    loot_quality := 1, visited := false }

/-- Demo room with path `a`. -/
def room_a : DungeonRoom :=
  { world_id := 1, zone_name := "root", file_path := "a", danger_level := 1,
    loot_quality := 1, visited := false }

/-- Demo room with path `b`. -/
def room_b : DungeonRoom :=
  { world_id := 1, zone_name := "root", file_path := "b", danger_level := 2,
    loot_quality := 1, visited := false }

/-- A second, different room that repeats the path `a`. -/
def room_a2 : DungeonRoom :=
  { world_id := 1, zone_name := "root", file_path := "a", danger_level := 3,
    loot_quality := 2, visited := false }

/-- A room list with a duplicated `file_path`. -/
def demo_rooms : List DungeonRoom := [room_a, room_b, room_a2]

/-- Claim C3 (corrected): `calculate_damage` clamps twice, not once.  The
code computes `max(1, max(1, attack − defense // 2) + v)`; its result is
never below 1, and it coincides with the single-clamp formula of the claim
whenever `attack − defense // 2 ≥ 1`. -/
theorem calculate_damage_double_clamp (a d : Nat) (v : Int)
    (h1 : -2 ≤ v) (h2 : v ≤ 2) :
    calculate_damage a d v = max 1 (max 1 ((a : Int) - ((d / 2 : Nat) : Int)) + v)
    ∧ 1 ≤ calculate_damage a d v
    ∧ (1 ≤ (a : Int) - ((d / 2 : Nat) : Int) →
        calculate_damage a d v = max 1 ((a : Int) - ((d / 2 : Nat) : Int) + v)) := by
  refine ⟨rfl, ?_, fun h => ?_⟩
  · show (1 : Int) ≤ max 1 (max 1 ((a : Int) - ((d / 2 : Nat) : Int)) + v)
    exact le_max_left _ _
  · show max 1 (max 1 ((a : Int) - ((d / 2 : Nat) : Int)) + v)
      = max 1 ((a : Int) - ((d / 2 : Nat) : Int) + v)
    rw [max_eq_right h]

/-- Witness for C3: the amended statement applied at attack 10, defense 4,
variance 2. -/
theorem calculate_damage_double_clamp_witness :
    calculate_damage 10 4 2 = max 1 (max 1 ((10 : Int) - ((4 / 2 : Nat) : Int)) + 2)
    ∧ 1 ≤ calculate_damage 10 4 2
    ∧ (1 ≤ (10 : Int) - ((4 / 2 : Nat) : Int) →
        calculate_damage 10 4 2 = max 1 ((10 : Int) - ((4 / 2 : Nat) : Int) + 2)) :=
  calculate_damage_double_clamp 10 4 2 (by decide) (by decide)

/-- Counterexample for C3 as stated: at attack 1, defense 2, variance 2 the
code returns 3 while the single-clamp formula of the claim gives 2. -/
theorem calculate_damage_single_clamp_fails :
    calculate_damage 1 2 2 = 3
    ∧ max 1 ((1 : Int) - ((2 / 2 : Nat) : Int) + 2) = 2
    ∧ calculate_damage 1 2 2 ≠ max 1 ((1 : Int) - ((2 / 2 : Nat) : Int) + 2) := by
  decide

/-- Claim C10 (confirmed): for any action other than `attack`, `defend` and
`flee`, `combat_turn` returns the empty message, `continues = true` and no
outcome, and leaves the player, the enemy and the generator state
untouched. -/
theorem combat_turn_unknown_action {S : Type} (G : RNG S) (p : Player)
    (e : Enemy) (action : String) (s : S) (h1 : action ≠ "attack")
    (h2 : action ≠ "defend") (h3 : action ≠ "flee") :
    combat_turn G p e action s = (("", true, none), p, e, s) := by
  simp only [combat_turn, if_neg h1, if_neg h2, if_neg h3]
  rfl

/-- Witness for C10: the theorem applied to the action `dance`. -/
theorem combat_turn_unknown_action_witness :
    combat_turn natRNG demo_player demo_enemy "dance" 0
      = (("", true, none), demo_player, demo_enemy, 0) :=
  combat_turn_unknown_action natRNG demo_player demo_enemy "dance" 0
    (by decide) (by decide) (by decide)

/-- Claim C9 (confirmed): when `additions` or `deletions` is `None` or `0`,
`compute_pr_boss_level` applies no diff-size tier bonus at all, whatever the
other side of the diff is: the result is exactly the comment-scaled half
level under the cap. -/
theorem compute_pr_boss_level_no_tier_bonus (pr : PullRequestData)
    (base_repo_level : Nat)
    (h : pyTruthy pr.additions = false ∨ pyTruthy pr.deletions = false) :
    compute_pr_boss_level pr base_repo_level =
      min (max 1 (base_repo_level / 2) + pr.comment_count / 3)
        (min (base_repo_level + 10) 50) := by
  unfold compute_pr_boss_level
  rcases h with h | h <;> simp [h]

/-- Witness for C9: a pull request with 2000 added lines but `deletions = 0`
gets no tier bonus: with base level 20 and 9 comments the boss level is
`max(1,10) + 3 = 13`. -/
theorem compute_pr_boss_level_no_tier_bonus_witness :
    compute_pr_boss_level
      { pr_number := 7, comment_count := 9, additions := some 2000,
        deletions := some 0 } 20
      = min (max 1 (20 / 2) + 9 / 3) (min (20 + 10) 50)
    ∧ compute_pr_boss_level
      { pr_number := 7, comment_count := 9, additions := some 2000,
        deletions := some 0 } 20 = 13 :=
  ⟨compute_pr_boss_level_no_tier_bonus _ 20 (Or.inr (by decide)), by decide⟩

/-- Claim C2 (corrected): on the Scenario D input (base 20, 9 comments,
600 additions, 600 deletions) the code returns 23, because the 1200 changed
lines exceed 1000 and earn the `+10` tier, not the `+5` of the scenario
text. -/
theorem compute_pr_boss_level_scenario_d :
    compute_pr_boss_level
      { comment_count := 9, additions := some 600, deletions := some 600 } 20 = 23
    ∧ (23 : Nat) = min (max 1 (20 / 2) + 9 / 3 + 10) (min (20 + 10) 50) := by
  decide

/-- Counterexample for C2 as stated: the Scenario D call does not return
18. -/
theorem compute_pr_boss_level_scenario_d_not_18 :
    compute_pr_boss_level
      { comment_count := 9, additions := some 600, deletions := some 600 } 20 ≠ 18 := by
  decide

/-- Claim C4 (confirmed): name and enemy generation are deterministic in
their inputs.  Both functions begin by reseeding the generator from the
input seed, so two calls that differ only in the hidden incoming generator
state return the same name and the same enemy (in particular the same name,
level, hp, attack, defense and tags). -/
theorem generation_deterministic {S : Type} (G : RNG S) (s1 s2 : S)
    (keyword_hits : List (String × Nat)) (seed word_count : Nat)
    (f : ReadmeFeatures) (world_id : Option Nat)
    (stars forks activity_score total_files commit_count : Nat) :
    (generate_enemy_name G s1 keyword_hits seed word_count).1
      = (generate_enemy_name G s2 keyword_hits seed word_count).1
    ∧ (generate_enemy_from_readme G s1 f world_id stars forks activity_score
        total_files commit_count).1
      = (generate_enemy_from_readme G s2 f world_id stars forks activity_score
        total_files commit_count).1 :=
  ⟨rfl, rfl⟩

/-- Claim C5 (confirmed): the main enemy level is exactly the capped sum of
the six independently capped factors, and is therefore always in
`[1, 100]`. -/
theorem main_enemy_level_formula {S : Type} (G : RNG S) (s : S)
    (f : ReadmeFeatures) (world_id : Option Nat)
    (stars forks activity_score total_files commit_count : Nat) :
    (generate_enemy_from_readme G s f world_id stars forks activity_score
        total_files commit_count).1.level
      = min (1 + min (activity_score / 100) 30 + min (total_files / 10) 25
          + min (stars / 100) 20 + min (forks / 50) 15 + min (commit_count / 5) 10
          + min (f.word_count / 500) 5) 100
    ∧ 1 ≤ (generate_enemy_from_readme G s f world_id stars forks activity_score
        total_files commit_count).1.level
    ∧ (generate_enemy_from_readme G s f world_id stars forks activity_score
        total_files commit_count).1.level ≤ 100 := by
  refine ⟨rfl, ?_, ?_⟩
  · show 1 ≤ min (1 + min (activity_score / 100) 30 + min (total_files / 10) 25
      + min (stars / 100) 20 + min (forks / 50) 15 + min (commit_count / 5) 10
      + min (f.word_count / 500) 5) 100
    omega
  · show min (1 + min (activity_score / 100) 30 + min (total_files / 10) 25
      + min (stars / 100) 20 + min (forks / 50) 15 + min (commit_count / 5) 10
      + min (f.word_count / 500) 5) 100 ≤ 100
    omega

/-- One unrolling of the level-up loop when the threshold is met. -/
theorem level_up_loop_step (p : Player) (h : p.level * 100 ≤ p.xp) (b : Bool) :
    level_up_loop p b = level_up_loop
      { p with
        xp := p.xp - p.level * 100
        level := p.level + 1
        hp := p.hp + 10
        attack := p.attack + 2
        defense := p.defense + 1
        speed := p.speed + 1
        luck := p.luck + 1 }
      true := by
  rw [level_up_loop, if_pos h]

/-- The level-up loop stops when the threshold is not met. -/
theorem level_up_loop_stop (p : Player) (h : ¬ (p.level * 100 ≤ p.xp)) (b : Bool) :
    level_up_loop p b = (p, b) := by
  rw [level_up_loop, if_neg h]

/-- Claim C7 (confirmed): from `xp = 0`, awarding exactly `level * 100` XP
triggers exactly one level-up (xp back to 0, level `+1`, stats
`+10/+2/+1/+1/+1`, flag `true`), and awarding the next two thresholds at
once triggers a double level-up in one call. -/
theorem award_xp_exact_threshold (p : Player) (h : p.xp = 0) :
    (award_xp p (p.level * 100)).1 =
      { p with
        level := p.level + 1
        xp := 0
        hp := p.hp + 10
        attack := p.attack + 2
        defense := p.defense + 1
        speed := p.speed + 1
        luck := p.luck + 1 }
    ∧ (award_xp p (p.level * 100)).2 = true
    ∧ (award_xp p (p.level * 100 + (p.level + 1) * 100)).1 =
      { p with
        level := p.level + 2
        xp := 0
        hp := p.hp + 20
        attack := p.attack + 4
        defense := p.defense + 2
        speed := p.speed + 2
        luck := p.luck + 2 } := by
  have h1 : award_xp p (p.level * 100) =
      (Player.mk p.name (p.level + 1) 0 (p.hp + 10) (p.attack + 2)
        (p.defense + 1) (p.speed + 1) (p.luck + 1), true) := by
    unfold award_xp
    rw [level_up_loop_step _ (by simp) _]
    rw [level_up_loop_stop _ (by simp; omega) _]
    simp [Player.mk.injEq]
    omega
  have h2 : award_xp p (p.level * 100 + (p.level + 1) * 100) =
      (Player.mk p.name (p.level + 2) 0 (p.hp + 20) (p.attack + 4)
        (p.defense + 2) (p.speed + 2) (p.luck + 2), true) := by
    unfold award_xp
    rw [level_up_loop_step _ (by simp; omega) _]
    rw [level_up_loop_step _ (by simp; omega) _]
    rw [level_up_loop_stop _ (by simp; omega) _]
    simp [Player.mk.injEq]
    omega
  exact ⟨by rw [h1], by rw [h1], by rw [h2]⟩

/-- Witness for C7: the theorem applied to the default player. -/
theorem award_xp_exact_threshold_witness :
    (award_xp demo_player (demo_player.level * 100)).1 =
      { demo_player with
        level := demo_player.level + 1
        xp := 0
        hp := demo_player.hp + 10
        attack := demo_player.attack + 2
        defense := demo_player.defense + 1
        speed := demo_player.speed + 1
        luck := demo_player.luck + 1 }
    ∧ (award_xp demo_player (demo_player.level * 100)).2 = true
    ∧ (award_xp demo_player (demo_player.level * 100 + (demo_player.level + 1) * 100)).1 =
      { demo_player with
        level := demo_player.level + 2
        xp := 0
        hp := demo_player.hp + 20
        attack := demo_player.attack + 4
        defense := demo_player.defense + 2
        speed := demo_player.speed + 2
        luck := demo_player.luck + 2 } :=
  award_xp_exact_threshold demo_player rfl

/-- No room surviving deduplication carries a path that was already seen. -/
theorem dedup_rooms_not_seen :
    ∀ (rooms : List DungeonRoom) (seen : List String),
      ∀ r ∈ dedup_rooms rooms seen, r.file_path ∉ seen := by
  intro rooms
  induction rooms with
  | nil => intro seen r hr; simp [dedup_rooms] at hr
  | cons x rest ih =>
    intro seen r hr
    by_cases hx : x.file_path ∈ seen
    · rw [dedup_rooms, if_pos hx] at hr
      exact ih seen r hr
    · rw [dedup_rooms, if_neg hx] at hr
      rcases List.mem_cons.mp hr with rfl | hr2
      · exact hx
      · have h2 := ih (x.file_path :: seen) r hr2
        exact fun hmem => h2 (List.mem_cons_of_mem _ hmem)

/-- Deduplicated rooms are pairwise distinct in `file_path`. -/
theorem dedup_rooms_pairwise :
    ∀ (rooms : List DungeonRoom) (seen : List String),
      (dedup_rooms rooms seen).Pairwise (fun a b => a.file_path ≠ b.file_path) := by
  intro rooms
  induction rooms with
  | nil => intro seen; simp [dedup_rooms]
  | cons x rest ih =>
    intro seen
    by_cases hx : x.file_path ∈ seen
    · rw [dedup_rooms, if_pos hx]
      exact ih seen
    · rw [dedup_rooms, if_neg hx]
      refine List.Pairwise.cons ?_ (ih (x.file_path :: seen))
      intro b hb he
      exact dedup_rooms_not_seen rest (x.file_path :: seen) b hb
        (he ▸ List.mem_cons_self _ _)

/-- Every deduplicated room is the first room of the input that carries its
path. -/
theorem dedup_rooms_first_occurrence :
    ∀ (rooms : List DungeonRoom) (seen : List String),
      ∀ r ∈ dedup_rooms rooms seen,
        rooms.find? (fun x => x.file_path == r.file_path) = some r := by
  intro rooms
  induction rooms with
  | nil => intro seen r hr; simp [dedup_rooms] at hr
  | cons x rest ih =>
    intro seen r hr
    by_cases hx : x.file_path ∈ seen
    · rw [dedup_rooms, if_pos hx] at hr
      have hne : x.file_path ≠ r.file_path := by
        intro he
        exact dedup_rooms_not_seen rest seen r hr (he ▸ hx)
      rw [List.find?_cons_of_neg _ (by simpa using hne)]
      exact ih seen r hr
    · rw [dedup_rooms, if_neg hx] at hr
      rcases List.mem_cons.mp hr with rfl | hr2
      · rw [List.find?_cons_of_pos _ (by simp)]
      · have hne : x.file_path ≠ r.file_path := by
          intro he
          exact dedup_rooms_not_seen rest (x.file_path :: seen) r hr2
            (he ▸ List.mem_cons_self _ _)
        rw [List.find?_cons_of_neg _ (by simpa using hne)]
        exact ih (x.file_path :: seen) r hr2

/-- Every input room has a surviving representative with the same path, or
its path was already seen. -/
theorem dedup_rooms_covers :
    ∀ (rooms : List DungeonRoom) (seen : List String),
      ∀ r ∈ rooms, r.file_path ∈ seen
        ∨ ∃ q ∈ dedup_rooms rooms seen, q.file_path = r.file_path := by
  intro rooms
  induction rooms with
  | nil => intro seen r hr; simp at hr
  | cons x rest ih =>
    intro seen r hr
    by_cases hx : x.file_path ∈ seen
    · rw [dedup_rooms, if_pos hx]
      rcases List.mem_cons.mp hr with rfl | hr2
      · exact Or.inl hx
      · exact ih seen r hr2
    · rw [dedup_rooms, if_neg hx]
      rcases List.mem_cons.mp hr with rfl | hr2
      · exact Or.inr ⟨r, List.mem_cons_self _ _, rfl⟩
      · rcases ih (x.file_path :: seen) r hr2 with hseen | ⟨q, hq, he⟩
        · rcases List.mem_cons.mp hseen with he2 | hseen2
          · exact Or.inr ⟨x, List.mem_cons_self _ _, he2.symm⟩
          · exact Or.inl hseen2
        · exact Or.inr ⟨q, List.mem_cons_of_mem _ hq, he⟩

/-- Claim C6 (confirmed): the deduplication pass of `build_repo_world`
leaves no two rooms with the same `file_path`, keeps for each path exactly
the first room of generation order, and drops no path. -/
theorem build_repo_world_dedup (rooms : List DungeonRoom) :
    (dedup_rooms rooms []).Pairwise (fun a b => a.file_path ≠ b.file_path)
    ∧ (∀ r ∈ dedup_rooms rooms [],
        rooms.find? (fun x => x.file_path == r.file_path) = some r)
    ∧ (∀ r ∈ rooms, ∃ q ∈ dedup_rooms rooms [], q.file_path = r.file_path) := by
  refine ⟨dedup_rooms_pairwise rooms [],
    fun r hr => dedup_rooms_first_occurrence rooms [] r hr,
    fun r hr => ?_⟩
  rcases dedup_rooms_covers rooms [] r hr with h | h
  · simp at h
  · exact h

/-- Witness for C6: the theorem applied to a list with a duplicated path,
extracting pairwise distinctness and the first-occurrence equation for the
kept duplicate. -/
theorem build_repo_world_dedup_witness :
    (dedup_rooms demo_rooms []).Pairwise (fun a b => a.file_path ≠ b.file_path)
    ∧ demo_rooms.find? (fun x => x.file_path == room_a.file_path) = some room_a :=
  ⟨(build_repo_world_dedup demo_rooms).1,
   (build_repo_world_dedup demo_rooms).2.1 room_a (by decide)⟩

/-- The danger computation always lands in `[1, 13]`: the base is clamped
into `[1, 10]`, and the later code/test adjustments can add at most 3. -/
theorem danger_for_bounds (zone_name : String) (zone_file_count : Nat)
    (file_type : Option String) :
    1 ≤ danger_for zone_name zone_file_count file_type
    ∧ danger_for zone_name zone_file_count file_type ≤ 13 := by
  rcases file_type with _ | t
  · simp only [danger_for]
    split_ifs <;> omega
  · simp only [danger_for]
    split_ifs <;> omega

/-- Every room the newer entry loop emits has danger in `[1, 13]`. -/
theorem rooms_loop_danger_bounds {S : Type} (G : RNG S) (world_id : Nat) :
    ∀ (entries : List TreeEntry) (counts : String → Nat) (s : S),
      ∀ r ∈ rooms_loop G world_id entries counts s,
        1 ≤ r.danger_level ∧ r.danger_level ≤ 13 := by
  intro entries
  induction entries with
  | nil => intro counts s r hr; simp [rooms_loop] at hr
  | cons e rest ih =>
    intro counts s r hr
    by_cases hd : e.is_dir = true
    · rw [rooms_loop, if_pos hd] at hr
      exact ih counts s r hr
    · by_cases hb : isBlank e.path = true
      · rw [rooms_loop, if_neg hd, if_pos hb] at hr
        exact ih counts s r hr
      · rw [rooms_loop, if_neg hd, if_neg hb] at hr
        rcases List.mem_cons.mp hr with rfl | hr2
        · exact danger_for_bounds _ _ _
        · exact ih _ _ r hr2

/-- Every room the older entry loop emits has danger in `[1, 13]`. -/
theorem rooms_loop_old_danger_bounds {S : Type} (G : RNG S) (world_id : Nat)
    (base_loot : Int) :
    ∀ (entries : List TreeEntry) (counts : String → Nat) (s : S),
      ∀ r ∈ rooms_loop_old G world_id base_loot entries counts s,
        1 ≤ r.danger_level ∧ r.danger_level ≤ 13 := by
  intro entries
  induction entries with
  | nil => intro counts s r hr; simp [rooms_loop_old] at hr
  | cons e rest ih =>
    intro counts s r hr
    by_cases hd : e.is_dir = true
    · rw [rooms_loop_old, if_pos hd] at hr
      exact ih counts s r hr
    · rw [rooms_loop_old, if_neg hd] at hr
      rcases List.mem_cons.mp hr with rfl | hr2
      · exact danger_for_bounds _ _ _
      · exact ih _ _ r hr2

/-- Claim C1 (corrected): the danger level of a generated room is not
bounded by 10 but by 13: the `min(..., 10)` clamp applies only to the
zone-count base, and the code-extension `+1` and test-zone `+2` bonuses are
added afterwards.  Both generator versions keep every room danger in
`[1, 13]`. -/
theorem dungeon_room_danger_in_one_thirteen {S : Type} (G : RNG S) (s : S)
    (tree_entries : List TreeEntry) (world_id stars : Nat) (health_state : String) :
    (∀ r ∈ generate_dungeon_rooms G s tree_entries world_id stars health_state,
        1 ≤ r.danger_level ∧ r.danger_level ≤ 13)
    ∧ (∀ r ∈ generate_dungeon_rooms_old G s tree_entries world_id stars health_state,
        1 ≤ r.danger_level ∧ r.danger_level ≤ 13) :=
  ⟨fun r hr => rooms_loop_danger_bounds G world_id tree_entries (fun _ => 0) s r hr,
   fun r hr => rooms_loop_old_danger_bounds G world_id
     (base_loot_for stars health_state) tree_entries (fun _ => 0) s r hr⟩

/-- Witness for C1: the bound applied to the room generated from a single
root-level python file. -/
theorem dungeon_room_danger_in_one_thirteen_witness :
    1 ≤ demo_room.danger_level ∧ demo_room.danger_level ≤ 13 :=
  (dungeon_room_danger_in_one_thirteen natRNG 0 [demo_entry] 1 0 "Unknown").1
    demo_room (by decide)

/-- Counterexample for C1 as stated: thirty-five python files in a `tests`
zone drive the last room danger to 11, above the claimed bound of 10. -/
theorem dungeon_room_danger_above_ten :
    ¬ (∀ r ∈ generate_dungeon_rooms natRNG 0 (List.replicate 35 demo_test_entry)
        1 0 "Unknown", r.danger_level ≤ 10) := by
  decide

/-- The two entry loops agree on everything except loot: under the
assumption that no file entry has a blank path, the per-entry skip
decisions, zone names, paths, danger levels and visited flags coincide for
any two generators and any two starting states. -/
theorem rooms_loop_core_agree {S1 S2 : Type} (G1 : RNG S1) (G2 : RNG S2)
    (world_id : Nat) (base_loot : Int) :
    ∀ (entries : List TreeEntry) (counts : String → Nat) (s1 : S1) (s2 : S2),
      (∀ e ∈ entries, e.is_dir = false → isBlank e.path = false) →
      (rooms_loop G1 world_id entries counts s1).map core_of
        = (rooms_loop_old G2 world_id base_loot entries counts s2).map core_of := by
  intro entries
  induction entries with
  | nil => intro counts s1 s2 h; rfl
  | cons e rest ih =>
    intro counts s1 s2 h
    have htail : ∀ x ∈ rest, x.is_dir = false → isBlank x.path = false :=
      fun x hx => h x (List.mem_cons_of_mem _ hx)
    by_cases hd : e.is_dir = true
    · rw [rooms_loop, rooms_loop_old, if_pos hd, if_pos hd]
      exact ih counts s1 s2 htail
    · have hb : isBlank e.path = false :=
        h e (List.mem_cons_self _ _) (by simpa using hd)
      rw [rooms_loop, rooms_loop_old, if_neg hd, if_neg hd,
        if_neg (by simp [hb] : ¬ isBlank e.path = true)]
      simp only [List.map_cons]
      congr 1
      exact ih _ _ _ htail

/-- Claim C8 (confirmed): when every file entry has a non-blank path, the
newer and the older `generate_dungeon_rooms` return lists of equal length
whose rooms agree pairwise on `zone_name`, `file_path`, `danger_level` and
`visited` (and `world_id`), differing only in `loot_quality`. -/
theorem dungeon_generator_versions_agree {S1 S2 : Type} (G1 : RNG S1)
    (G2 : RNG S2) (s1 : S1) (s2 : S2) (tree_entries : List TreeEntry)
    (world_id stars : Nat) (health_state : String)
    (h : ∀ e ∈ tree_entries, e.is_dir = false → isBlank e.path = false) :
    (generate_dungeon_rooms G1 s1 tree_entries world_id stars health_state).map core_of
      = (generate_dungeon_rooms_old G2 s2 tree_entries world_id stars health_state).map core_of
    ∧ (generate_dungeon_rooms G1 s1 tree_entries world_id stars health_state).length
      = (generate_dungeon_rooms_old G2 s2 tree_entries world_id stars health_state).length := by
  have hm := rooms_loop_core_agree G1 G2 world_id
    (base_loot_for stars health_state) tree_entries (fun _ => 0) s1 s2 h
  refine ⟨hm, ?_⟩
  have hl := congrArg List.length hm
  simpa using hl

/-- Witness for C8: the agreement applied to a two-file tree under
`natRNG`. -/
theorem dungeon_generator_versions_agree_witness :
    (generate_dungeon_rooms natRNG 0 [demo_entry, demo_test_entry] 1 200 "Vibrant").map core_of
      = (generate_dungeon_rooms_old natRNG 0 [demo_entry, demo_test_entry] 1 200 "Vibrant").map core_of
    ∧ (generate_dungeon_rooms natRNG 0 [demo_entry, demo_test_entry] 1 200 "Vibrant").length
      = (generate_dungeon_rooms_old natRNG 0 [demo_entry, demo_test_entry] 1 200 "Vibrant").length :=
  dungeon_generator_versions_agree natRNG natRNG 0 0 [demo_entry, demo_test_entry]
    1 200 "Vibrant" (by decide)
